import Mathlib

/-
  Shallow embedding of the credo.logger package (herculesinc/credo.logger).

  Sources embedded:
    - src/lib/common.ts        : MessageLevel enum and MessageLevel.parse, Color
    - src/lib/ConsoleLogger.ts : ConsoleLogger class and helper functions
    - src/index.ts             : Logger facade, singleton accessor, pass-throughs

  JavaScript runtime values are modelled by the inductive `JSValue`.  Machine
  numbers are modelled as `Int` (every numeric literal appearing in the claims
  and in the code paths under verification is an integer; NaN shows up only as
  the absent result of a failed numeric conversion and is modelled by `none`
  in `jsToNum`).  Side effects (console writes, telemetry SDK calls) are
  modelled as explicit `Effect` values returned in a list; methods that can
  throw return `Except String _`.
-/

namespace Credo

/-- Model of a JavaScript runtime value, covering the value shapes that can
reach the logger's code paths: undefined, null, booleans, numbers, strings,
arrays of strings (the `sources` option), Error objects (with their `message`
and `stack` properties), opaque plain objects, and opaque function values
(the namespace-merged `parse` member of the MessageLevel enum object). -/
inductive JSValue where
  | undef
  | null
  | bool (b : Bool)
  | num (n : Int)
  | str (s : String)
  | arr (elems : List String)
  | errObj (message : JSValue) (stack : JSValue)
  | obj
  | fn
deriving DecidableEq, Repr

/-- JavaScript truthiness. -/
def truthy : JSValue → Bool
  | .undef => false
  | .null => false
  | .bool b => b
  | .num n => n != 0
  | .str s => s != ""
  | .arr _ => true
  | .errObj _ _ => true
  | .obj => true
  | .fn => true

/-- JavaScript ToNumber for the values reachable in comparisons; `none`
models NaN.  String conversion covers decimal integer literals (the only
string shapes reachable in the embedded comparisons); other strings are NaN. -/
def jsToNum : JSValue → Option Int
  | .undef => none
  | .null => some 0
  | .bool b => some (if b then 1 else 0)
  | .num n => some n
  | .str s => if s = "" then some 0 else s.toInt?
  | .arr _ => none
  | .errObj _ _ => none
  | .obj => none
  | .fn => none

/-- JavaScript `a > b` against an integer right operand: both sides convert
to numbers, any NaN makes the comparison false. -/
def jsGT (a : JSValue) (b : Int) : Bool :=
  match jsToNum a with
  | some n => n > b
  | none => false

/-- JavaScript string coercion as performed by template literals. -/
def jsToString : JSValue → String
  | .undef => "undefined"
  | .null => "null"
  | .bool b => if b then "true" else "false"
  | .num n => toString n
  | .str s => s
  | .arr xs => String.intercalate "," xs
  | .errObj _ _ => "Error"
  | .obj => "[object Object]"
  | .fn => "function"

def isString : JSValue → Bool
  | .str _ => true
  | _ => false

def isNum : JSValue → Bool
  | .num _ => true
  | _ => false

def isError : JSValue → Bool
  | .errObj _ _ => true
  | _ => false

/-- Property access `error.stack` (facade guards ensure the receiver is an
Error object whenever this is evaluated). -/
def jsStackOf : JSValue → JSValue
  | .errObj _ st => st
  | _ => JSValue.undef

/-- Property access `error.message`. -/
def jsMessageOf : JSValue → JSValue
  | .errObj m _ => m
  | _ => JSValue.undef

/-- Rendering performed by JSON.stringify for the value shapes above; the
logger never inspects the produced text, only concatenates it, so opaque
objects are rendered as an empty JSON object.  (stringify of undefined is
itself undefined; that case is unreachable behind the truthiness guard in
ConsoleLogger.log and is rendered here as its template coercion.) -/
def jsonStringify : JSValue → String
  | .undef => "undefined"
  | .null => "null"
  | .bool b => if b then "true" else "false"
  | .num n => toString n
  | .str s => "\"" ++ s ++ "\""
  | .arr xs => "[" ++ String.intercalate "," (xs.map (fun x => "\"" ++ x ++ "\"")) ++ "]"
  | .errObj _ _ => "\x7b\x7d"
  | .obj => "\x7b\x7d"
  | .fn => "undefined"

-- SEVERITY LEVEL (src/lib/common.ts)
-- ===============================================================================================

/-- The three members of the numeric enum `MessageLevel` from src/lib/common.ts:
`enum MessageLevel \x7b debug = 1, info, warning \x7d`. -/
def MessageLevel.debug : Int := 1

def MessageLevel.info : Int := 2

def MessageLevel.warning : Int := 3

/-- Indexed access `MessageLevel[s]` on the compiled enum object.  A numeric
TypeScript enum object carries both forward entries (name to rank) and reverse
entries (rank rendered in decimal to name), as visible in the compiled
src/bin/lib/common.js.  The namespace-merged `parse` function is also a member
of the object at runtime; it is modelled as the opaque function value. -/
def MessageLevel.member : String → JSValue
  | "debug" => .num 1
  | "info" => .num 2
  | "warning" => .num 3
  | "1" => .str "debug"
  | "2" => .str "info"
  | "3" => .str "warning"
  | "parse" => .fn
  | _ => JSValue.undef

/-- MessageLevel.parse from src/lib/common.ts:
falsy input yields undefined; a number is returned as-is; a string is looked
up on the enum object; a (truthy) boolean yields MessageLevel.debug. -/
def MessageLevel.parse (value : JSValue) : JSValue :=
  if !truthy value then .undef
  else match value with
    | .num n => .num n
    | .str s => MessageLevel.member s
    | .bool _ => .num MessageLevel.debug
    | _ => JSValue.undef

-- COLOR (src/lib/common.ts) and colorizer (src/lib/ConsoleLogger.ts)
-- ===============================================================================================

/-- The closed set of nine color names from src/lib/common.ts. -/
inductive Color where
  | black | red | green | yellow | blue | magenta | cyan | white | grey
deriving DecidableEq, Repr

/-- ANSI opening sequence produced by the colors package for each color. -/
def colorCode : Color → String
  | .black => "\x1b[30m"
  | .red => "\x1b[31m"
  | .green => "\x1b[32m"
  | .yellow => "\x1b[33m"
  | .blue => "\x1b[34m"
  | .magenta => "\x1b[35m"
  | .cyan => "\x1b[36m"
  | .white => "\x1b[37m"
  | .grey => "\x1b[90m"

/-- applyColor from src/lib/ConsoleLogger.ts: a falsy message yields
undefined (modelled as none), a missing color passes the message through,
otherwise the message is wrapped in the ANSI codes of the colors package.
The `Invalid Color` throw is unreachable here because `Color` is closed. -/
def applyColor (message : String) (color : Option Color) : Option String :=
  if message = "" then none
  else match color with
    | none => some message
    | some c => some (colorCode c ++ (message ++ "\x1b[39m"))

/-- Per-severity color choices (the `severity` field of ColorOptions). -/
structure SeverityColors where
  debug : Option Color := none
  info : Option Color := none
  warning : Option Color := none
  error : Option Color := none
deriving DecidableEq, Repr

/-- Indexed access `severity[name]` where `name` is a ConsoleStream member
name; any other key yields no color. -/
def SeverityColors.lookup (sc : SeverityColors) : String → Option Color
  | "debug" => sc.debug
  | "info" => sc.info
  | "warning" => sc.warning
  | "error" => sc.error
  | _ => none

/-- The `color` field of ConsoleOptions: absent, a single Color, or a
structured ColorOptions record (severity map and services map). -/
inductive ColorInput where
  | absent
  | single (c : Color)
  | opts (severity : Option SeverityColors) (services : Option (List (String × Color)))
deriving DecidableEq, Repr

/-- The colorizer closure state produced by buildColorizer: either a uniform
color or the resolved severity/services maps. -/
inductive ColorSetting where
  | single (c : Color)
  | structured (severity : SeverityColors) (services : List (String × Color))
deriving DecidableEq, Repr

/-- buildColorizer from src/lib/ConsoleLogger.ts: no color configuration
yields no colorizer; a color string yields the uniform colorizer; an options
record is resolved with empty-map defaults for missing fields. -/
def buildColorizer : ColorInput → Option ColorSetting
  | .absent => none
  | .single c => some (.single c)
  | .opts sev svc => some (.structured (sev.getD {}) (svc.getD []))

/-- ConsoleStream reverse lookup `ConsoleStream[stream]` (enum
`debug = 1, info, warning, error`); out-of-range indices yield undefined,
coerced to its string form where interpolated. -/
def streamName : Nat → String
  | 1 => "debug"
  | 2 => "info"
  | 3 => "warning"
  | 4 => "error"
  | _ => "undefined"

/-- Application of the colorizer closure: a uniform setting applies its
color; a structured setting looks the severity name up first and falls back
to the service color (JavaScript disjunction: color strings are truthy). -/
def colorize (setting : ColorSetting) (message : String) (stream : Nat)
    (service : Option String) : Option String :=
  match setting with
  | .single c => applyColor message (some c)
  | .structured sev svc =>
      applyColor message
        ((sev.lookup (streamName stream)).or
          (match service with
           | some s => svc.lookup s
           | none => none))

-- PREFIXER (src/lib/ConsoleLogger.ts)
-- ===============================================================================================

/-- The PrefixOptions interface: each field optional (absent modelled as
none). -/
structure PrefixOptionsInput where
  name : Option Bool := none
  time : Option Bool := none
  stream : Option Bool := none
deriving DecidableEq, Repr

/-- The `prefix` field of ConsoleOptions as passed to buildPrefixer: either a
boolean flag or a PrefixOptions record. -/
inductive PrefixArg where
  | flag (b : Bool)
  | opts (o : PrefixOptionsInput)
deriving DecidableEq, Repr

/-- The closure state captured by the prefixer returned from buildPrefixer:
the three resolved segment flags. -/
structure PrefixFlags where
  time : Bool
  name : Bool
  stream : Bool
deriving DecidableEq, Repr

/-- buildPrefixer from src/lib/ConsoleLogger.ts: the boolean false yields no
prefixer; the boolean true uses DEFAULT_PREFIX_OPTIONS (name only); an
options record is merged over DEFAULT_PREFIX_OPTIONS and yields no prefixer
when every flag is off. -/
def buildPrefixer : PrefixArg → Option PrefixFlags
  | .flag false => none
  | .flag true => some { time := false, name := true, stream := false }
  | .opts o =>
      let r : PrefixFlags :=
        { time := o.time.getD false, name := o.name.getD true, stream := o.stream.getD false }
      if !r.time && !r.name && !r.stream then none else some r

/-- The prefix string produced by the prefixer closure: timestamp, then
name, then stream (level) name, then service, each segment present only when
its flag is on (the service segment when a truthy service is supplied). -/
def prefixString (r : PrefixFlags) (name now : String) (stream : Nat)
    (service : Option String) : String :=
  (if r.time then "[" ++ (now ++ "]") else "")
    ++ ((if r.name then "[" ++ (name ++ "]") else "")
    ++ ((if r.stream then "[" ++ (streamName stream ++ "]") else "")
    ++ (match service with
        | some s => if s ≠ "" then "[" ++ (s ++ "]") else ""
        | none => "")))

-- CONSOLE LOGGER (src/lib/ConsoleLogger.ts)
-- ===============================================================================================

/-- The FormatOptions interface: error rendering mode and request line
format, each optional. -/
structure FormatOptionsInput where
  error : Option String := none
  request : Option String := none
deriving DecidableEq, Repr

/-- The ConsoleOptions interface (the object branch of the console option).
The source field named after the prefix segment is called `prefixOpt` here. -/
structure ConsoleOptionsInput where
  prefixOpt : Option PrefixArg := none
  formats : Option FormatOptionsInput := none
  color : ColorInput := .absent
deriving DecidableEq, Repr

/-- The `console` option of the facade: a boolean or a ConsoleOptions
record. -/
inductive ConsoleInput where
  | flag (b : Bool)
  | opts (o : ConsoleOptionsInput)
deriving DecidableEq, Repr

/-- JavaScript truthiness of the console option value (an object is always
truthy). -/
def ConsoleInput.truthyB : ConsoleInput → Bool
  | .flag b => b
  | .opts _ => true

/-- The state of a constructed ConsoleLogger: its name, the prefixer and
colorizer closures (absent when the builders returned nothing), and the
merged format options. -/
structure ConsoleConfig where
  name : String
  prefixCfg : Option PrefixFlags
  colorCfg : Option ColorSetting
  fmtError : String
  fmtRequest : String
deriving DecidableEq, Repr

/-- The ConsoleLogger constructor: a boolean option selects
DEFAULT_CONSOLE_OPTIONS wholesale; an object is merged over the defaults
field by field (default prefix = name only, default formats =
error stack / request short, no default color). -/
def ConsoleLogger.new (name : String) (options : ConsoleInput) : ConsoleConfig :=
  match options with
  | .flag _ =>
      { name := name
        prefixCfg := buildPrefixer (.opts {})
        colorCfg := buildColorizer .absent
        fmtError := "stack"
        fmtRequest := "short" }
  | .opts o =>
      { name := name
        prefixCfg := buildPrefixer (o.prefixOpt.getD (.opts {}))
        colorCfg := buildColorizer o.color
        fmtError := ((o.formats.getD {}).error).getD "stack"
        fmtRequest := ((o.formats.getD {}).request).getD "short" }

/-- Output stream selection of the final switch in logToConsole:
stream 1 prints via console.log, 2 via console.info, 3 via console.warn,
4 via console.error; any other value falls through the switch and prints
nothing. -/
inductive ConsoleMethod where
  | log | info | warn | error
deriving DecidableEq, Repr

def streamMethod : Nat → Option ConsoleMethod
  | 1 => some .log
  | 2 => some .info
  | 3 => some .warn
  | 4 => some .error
  | _ => none

/-- An observable side effect of a logging call: a console write (tagged
with the console method selected by the stream switch), the registration of
a deferred request-line write, or a telemetry SDK call. -/
inductive Effect where
  | console (method : ConsoleMethod) (text : String)
  | requestLogRegistered
  | trackTrace (message : String) (severity : Nat) (name : String) (source : Option JSValue)
  | trackException (err : JSValue)
  | trackEvent (event : String) (props : Option JSValue)
  | trackMetric (metric : JSValue) (value : JSValue)
  | trackDependency (source command : String) (duration : Int) (success : Bool)
  | trackRequest
deriving DecidableEq, Repr

/-- ConsoleLogger.logToConsole: a falsy message or falsy stream suppresses
output; otherwise the prefixer (when present) prepends its prefix and a
colon, the colorizer (when present) decorates the line, and the stream
switch selects the console method.  A colorizer result of undefined would be
printed in its string coercion (unreachable: the line is non-empty here). -/
def logToConsole (cfg : ConsoleConfig) (now : String) (message : JSValue)
    (stream : Nat) (service : Option String) : List Effect :=
  if !truthy message || stream == 0 then []
  else
    let m0 := jsToString message
    let m1 := match cfg.prefixCfg with
      | some r => prefixString r cfg.name now stream service ++ (": " ++ m0)
      | none => m0
    let m2 : String := match cfg.colorCfg with
      | some setting =>
          match colorize setting m1 stream service with
          | some s => s
          | none => "undefined"
      | none => m1
    match streamMethod stream with
    | some method => [.console method m2]
    | none => []

def ConsoleLogger.debug (cfg : ConsoleConfig) (now : String) (message : String) : List Effect :=
  logToConsole cfg now (.str message) 1 none

def ConsoleLogger.info (cfg : ConsoleConfig) (now : String) (message : String) : List Effect :=
  logToConsole cfg now (.str message) 2 none

def ConsoleLogger.warn (cfg : ConsoleConfig) (now : String) (message : String) : List Effect :=
  logToConsole cfg now (.str message) 3 none

/-- ConsoleLogger.error: the stack trace when the error format is stack and
a truthy stack is present, else the error message, else "Unknown error";
printed on stream 4. -/
def ConsoleLogger.error (cfg : ConsoleConfig) (now : String) (err : JSValue) : List Effect :=
  let message : JSValue :=
    if cfg.fmtError == "stack" && truthy (jsStackOf err) then jsStackOf err
    else if truthy (jsMessageOf err) then jsMessageOf err
    else .str "Unknown error"
  logToConsole cfg now message 4 none

/-- ConsoleLogger.log: truthy properties are appended as JSON after a colon;
printed on the info stream. -/
def ConsoleLogger.log (cfg : ConsoleConfig) (now : String) (event : String)
    (props : Option JSValue) : List Effect :=
  let message := match props with
    | some p => if truthy p then event ++ (": " ++ jsonStringify p) else event
    | none => event
  logToConsole cfg now (.str message) 2 none

/-- ConsoleLogger.track: the metric line is the bracketed pair
metric = value; printed on the info stream. -/
def ConsoleLogger.track (cfg : ConsoleConfig) (now : String) (metric value : JSValue) : List Effect :=
  logToConsole cfg now (.str ("[" ++ (jsToString metric ++ ("=" ++ (jsToString value ++ "]"))))) 2 none

/-- ConsoleLogger.trace: success and failure phrases around the bracketed
command and the duration; printed on the info stream with the service passed
to the prefixer. -/
def ConsoleLogger.trace (cfg : ConsoleConfig) (now : String) (service command : String)
    (duration : Int) (success : Bool) : List Effect :=
  let message :=
    if success then "executed [" ++ (command ++ ("] in " ++ (toString duration ++ " ms")))
    else "failed to execute [" ++ (command ++ ("] in " ++ (toString duration ++ " ms")))
  logToConsole cfg now (.str message) 2 (some service)

-- REQUEST LINE (src/lib/ConsoleLogger.ts, buildRequestLine)
-- ===============================================================================================

/-- The underlying connection of a request, read only for its remote
address. -/
structure Connection where
  remoteAddress : JSValue
deriving DecidableEq, Repr

/-- The fields of an incoming request read by buildRequestLine. -/
structure RequestInfo where
  ip : JSValue := .undef
  connection : Option Connection := none
  method : JSValue := .undef
  path : JSValue := .undef
  url : JSValue := .undef
  httpVersion : JSValue := .undef
deriving DecidableEq, Repr

/-- The fields of a server response read by buildRequestLine
(contentLength is the content-length header lookup result). -/
structure ResponseInfo where
  statusCode : JSValue := .undef
  contentLength : JSValue := .undef
deriving DecidableEq, Repr

/-- buildRequestLine from src/lib/ConsoleLogger.ts: undefined when the
request is absent; the address prefers the request's ip field over the
connection's remote address; the url prefers the path over the url field;
the short and dev formats produce their literal line shapes; any other
format value yields undefined. -/
def buildRequestLine (request : Option RequestInfo) (response : ResponseInfo)
    (duration : Int) (format : String) : JSValue :=
  match request with
  | none => .undef
  | some r =>
    let address := if truthy r.ip then r.ip
                   else match r.connection with
                        | some c => c.remoteAddress
                        | none => .undef
    let url := if truthy r.path then r.path else r.url
    if format == "short" then
      .str (jsToString address ++ (" - " ++ (jsToString r.method ++ (" " ++
        (jsToString url ++ (" HTTP/" ++ (jsToString r.httpVersion ++ (" " ++
        (jsToString response.statusCode ++ (" " ++ (jsToString response.contentLength ++ (" - " ++
        (toString duration ++ " ms")))))))))))))
    else if format == "dev" then
      .str (jsToString r.method ++ (" " ++ (jsToString url ++ (" " ++
        (jsToString response.statusCode ++ (" " ++ (toString duration ++ (" ms - " ++
        jsToString response.contentLength))))))))
    else JSValue.undef

/-- The deferred console write performed by the onFinished callback
registered in ConsoleLogger.request, once the response has finished:
builds the request line for the measured duration and prints it on the info
stream. -/
def ConsoleLogger.requestFinished (cfg : ConsoleConfig) (now : String)
    (request : Option RequestInfo) (response : ResponseInfo) (duration : Int) : List Effect :=
  logToConsole cfg now (buildRequestLine request response duration cfg.fmtRequest) 2 none

-- LOGGER FACADE (src/index.ts)
-- ===============================================================================================

/-- The LoggingOptions interface: each category field optional; an absent
field (none) is filled from DEFAULT_LOGGING_OPTIONS by the Object.assign
merge in the constructor. -/
structure LoggingOptionsInput where
  messages : Option JSValue := none
  errors : Option JSValue := none
  events : Option JSValue := none
  metrics : Option JSValue := none
  services : Option JSValue := none
  requests : Option JSValue := none
deriving DecidableEq, Repr

/-- The TelemetryOptions interface. -/
structure TelemetryInput where
  provider : JSValue := .undef
  key : String := ""
deriving DecidableEq, Repr

/-- The Options interface of the facade constructor. -/
structure Options where
  name : String
  log : Option LoggingOptionsInput := none
  sources : Option JSValue := none
  console : Option ConsoleInput := none
  telemetry : Option TelemetryInput := none
deriving DecidableEq, Repr

/-- The state of a constructed Logger: its name, the merged and parsed
logging options, the optional console sink state, whether a telemetry client
is attached, and the optional source allow-list. -/
structure LoggerState where
  name : String
  messages : JSValue
  errors : JSValue
  events : JSValue
  metrics : JSValue
  services : JSValue
  requests : JSValue
  console : Option ConsoleConfig
  telemetry : Bool
  whitelist : Option (List String)
deriving DecidableEq, Repr

/-- The Logger constructor from src/index.ts: merges the supplied log
options over DEFAULT_LOGGING_OPTIONS (messages = MessageLevel.debug, every
category true), normalizes the messages field through MessageLevel.parse,
builds the console sink when the console option is truthy, validates the
telemetry provider (an undefined or unsupported provider throws), and
requires a truthy sources option to be an array (else throws). -/
def Logger.new (options : Options) : Except String LoggerState := do
  let lo := options.log.getD {}
  let messages := MessageLevel.parse (lo.messages.getD (.num MessageLevel.debug))
  let console := match options.console with
    | some ci => if ci.truthyB then some (ConsoleLogger.new options.name ci) else none
    | none => none
  let telemetry ← match options.telemetry with
    | none => pure false
    | some t =>
        if !truthy t.provider then Except.error "Telemetry provider is undefined"
        else if t.provider != .str "appinsights" then
          Except.error "Telemetry provider is not supported"
        else pure true
  let whitelist ← match options.sources with
    | none => pure none
    | some s =>
        if !truthy s then pure none
        else match s with
          | .arr xs => pure (some xs)
          | _ => Except.error "sources option must be an array"
  return { name := options.name
           messages := messages
           errors := lo.errors.getD (.bool true)
           events := lo.events.getD (.bool true)
           metrics := lo.metrics.getD (.bool true)
           services := lo.services.getD (.bool true)
           requests := lo.requests.getD (.bool true)
           console := console
           telemetry := telemetry
           whitelist := whitelist }

/-- The allow-list membership test `this.whitelist.has(source)`: only a
string source can be a member of the set built from the sources array. -/
def whitelistHas (wl : Option (List String)) (source : JSValue) : Bool :=
  match wl, source with
  | some l, .str s => l.contains s
  | _, _ => false

/-- The source filter of debug/info/warn:
`source && this.whitelist && !this.whitelist.has(source)`. -/
def sourceBlocked (wl : Option (List String)) (source : JSValue) : Bool :=
  truthy source && wl.isSome && !whitelistHas wl source

/-- Logger.debug: gated by the messages threshold (only the numeric
comparison, with no falsy check), by the message being a truthy string, and
by the source filter; forwards to the console sink (which ignores the source
argument: the ConsoleLogger message methods take one parameter) and to
telemetry as a Verbose trace. -/
def Logger.debug (st : LoggerState) (message source : JSValue) (now : String) :
    Except String (List Effect) :=
  if jsGT st.messages MessageLevel.debug then .ok []
  else if !truthy message || !isString message then .ok []
  else if sourceBlocked st.whitelist source then .ok []
  else
    .ok ((match st.console with
          | some cfg => ConsoleLogger.debug cfg now (jsToString message)
          | none => [])
      ++ (if st.telemetry then
            [Effect.trackTrace (jsToString message) 0 st.name
              (if truthy source then some source else none)]
          else []))

/-- Logger.info: gated by a falsy or too-high messages threshold, the
message check and the source filter; forwards as an Information trace. -/
def Logger.info (st : LoggerState) (message source : JSValue) (now : String) :
    Except String (List Effect) :=
  if !truthy st.messages || jsGT st.messages MessageLevel.info then .ok []
  else if !truthy message || !isString message then .ok []
  else if sourceBlocked st.whitelist source then .ok []
  else
    .ok ((match st.console with
          | some cfg => ConsoleLogger.info cfg now (jsToString message)
          | none => [])
      ++ (if st.telemetry then
            [Effect.trackTrace (jsToString message) 1 st.name
              (if truthy source then some source else none)]
          else []))

/-- Logger.warn: gated by a falsy or too-high messages threshold, the
message check and the source filter; forwards as a Warning trace. -/
def Logger.warn (st : LoggerState) (message source : JSValue) (now : String) :
    Except String (List Effect) :=
  if !truthy st.messages || jsGT st.messages MessageLevel.warning then .ok []
  else if !truthy message || !isString message then .ok []
  else if sourceBlocked st.whitelist source then .ok []
  else
    .ok ((match st.console with
          | some cfg => ConsoleLogger.warn cfg now (jsToString message)
          | none => [])
      ++ (if st.telemetry then
            [Effect.trackTrace (jsToString message) 2 st.name
              (if truthy source then some source else none)]
          else []))

/-- Logger.error: gated only by the errors category flag and the argument
being a genuine Error value; forwards to the console error path and to the
telemetry exception call. -/
def Logger.error (st : LoggerState) (err : JSValue) (now : String) :
    Except String (List Effect) :=
  if !truthy st.errors || !truthy err || !isError err then .ok []
  else
    .ok ((match st.console with
          | some cfg => ConsoleLogger.error cfg now err
          | none => [])
      ++ (if st.telemetry then [Effect.trackException err] else []))

/-- Logger.log: gated by the events category flag and the event being a
string (of any length); forwards to the console event path and to the
telemetry event call. -/
def Logger.log (st : LoggerState) (event : JSValue) (props : Option JSValue) (now : String) :
    Except String (List Effect) :=
  if !truthy st.events || !isString event then .ok []
  else
    .ok ((match st.console with
          | some cfg => ConsoleLogger.log cfg now (jsToString event) props
          | none => [])
      ++ (if st.telemetry then [Effect.trackEvent (jsToString event) props] else []))

/-- Logger.track: gated by the metrics category flag, a truthy metric and a
numeric value; forwards to the console metric path and to the telemetry
metric call. -/
def Logger.track (st : LoggerState) (metric value : JSValue) (now : String) :
    Except String (List Effect) :=
  if !truthy st.metrics || !truthy metric || !isNum value then .ok []
  else
    .ok ((match st.console with
          | some cfg => ConsoleLogger.track cfg now metric value
          | none => [])
      ++ (if st.telemetry then [Effect.trackMetric metric value] else []))

/-- Logger.trace: gated by the services category flag and (when an
allow-list is present) membership of the source, then by the argument type
checks; a non-boolean success defaults to true; forwards to the console
trace path and to the telemetry dependency call. -/
def Logger.trace (st : LoggerState) (source command duration success : JSValue) (now : String) :
    Except String (List Effect) :=
  if !truthy st.services || (st.whitelist.isSome && !whitelistHas st.whitelist source) then .ok []
  else if !isString source || !isString command || !isNum duration then .ok []
  else
    let succ := match success with
      | .bool b => b
      | _ => true
    let dur : Int := match duration with
      | .num n => n
      | _ => 0
    .ok ((match st.console with
          | some cfg => ConsoleLogger.trace cfg now (jsToString source) (jsToString command) dur succ
          | none => [])
      ++ (if st.telemetry then
            [Effect.trackDependency (jsToString source) (jsToString command) dur succ]
          else []))

/-- Logger.request: gated by the requests category flag and both arguments
being truthy; the console sink registers the deferred request-line write and
telemetry records the request. -/
def Logger.request (st : LoggerState) (request response : JSValue) :
    Except String (List Effect) :=
  if !truthy st.requests || !truthy request || !truthy response then .ok []
  else
    .ok ((match st.console with
          | some _ => [Effect.requestLogRegistered]
          | none => [])
      ++ (if st.telemetry then [Effect.trackRequest] else []))

-- SINGLETON ACCESSOR AND PASS-THROUGH FUNCTIONS (src/index.ts)
-- ===============================================================================================

/-- The module-level `instance` variable: absent until the first successful
configure call. -/
abbrev GlobalState := Option LoggerState

/-- A configure call: throws when an instance is already stored (leaving it
unchanged); otherwise constructs the Logger, stores it and returns it (a
constructor throw propagates and leaves the variable unset). -/
def configure (g : GlobalState) (options : Options) : Except String LoggerState × GlobalState :=
  match g with
  | some inst => (.error "Global logger has already been configured", some inst)
  | none =>
      match Logger.new options with
      | .ok inst => (.ok inst, some inst)
      | .error e => (.error e, none)

/-- getInstance: throws when no instance has been configured. -/
def getInstance (g : GlobalState) : Except String LoggerState :=
  match g with
  | none => .error "Global logger has not yet been configured"
  | some inst => .ok inst

def passthroughDebug (g : GlobalState) (message source : JSValue) (now : String) :
    Except String (List Effect) :=
  match g with
  | none => .error "Global logger has not yet been configured"
  | some inst => Logger.debug inst message source now

def passthroughInfo (g : GlobalState) (message source : JSValue) (now : String) :
    Except String (List Effect) :=
  match g with
  | none => .error "Global logger has not yet been configured"
  | some inst => Logger.info inst message source now

def passthroughWarn (g : GlobalState) (message source : JSValue) (now : String) :
    Except String (List Effect) :=
  match g with
  | none => .error "Global logger has not yet been configured"
  | some inst => Logger.warn inst message source now

def passthroughError (g : GlobalState) (err : JSValue) (now : String) :
    Except String (List Effect) :=
  match g with
  | none => .error "Global logger has not yet been configured"
  | some inst => Logger.error inst err now

def passthroughLog (g : GlobalState) (event : JSValue) (props : Option JSValue) (now : String) :
    Except String (List Effect) :=
  match g with
  | none => .error "Global logger has not yet been configured"
  | some inst => Logger.log inst event props now

def passthroughTrack (g : GlobalState) (metric value : JSValue) (now : String) :
    Except String (List Effect) :=
  match g with
  | none => .error "Global logger has not yet been configured"
  | some inst => Logger.track inst metric value now

def passthroughTrace (g : GlobalState) (source command duration success : JSValue) (now : String) :
    Except String (List Effect) :=
  match g with
  | none => .error "Global logger has not yet been configured"
  | some inst => Logger.trace inst source command duration success now

def passthroughRequest (g : GlobalState) (request response : JSValue) :
    Except String (List Effect) :=
  match g with
  | none => .error "Global logger has not yet been configured"
  | some inst => Logger.request inst request response

-- EFFECT CLASSIFICATION
-- ===============================================================================================

/-- Whether an effect is an action of the console sink (an immediate console
write or the registration of a deferred request line). -/
def Effect.isConsole : Effect → Bool
  | .console _ _ => true
  | .requestLogRegistered => true
  | _ => false

/-- Whether an effect is a telemetry SDK call. -/
def Effect.isTelemetry : Effect → Bool
  | .console _ _ => false
  | .requestLogRegistered => false
  | _ => true

/-- Whether an effect list contains a console-sink action. -/
def hasConsoleEffect (effs : List Effect) : Bool :=
  effs.any Effect.isConsole

/-- Whether an effect list contains a telemetry call. -/
def hasTelemetryEffect (effs : List Effect) : Bool :=
  effs.any Effect.isTelemetry

/-- Whether an effect, if it is a console write, uses the given console
method (non-console effects pass vacuously). -/
def onlyVia (m : ConsoleMethod) (e : Effect) : Bool :=
  match e with
  | .console m2 _ => m2 == m
  | _ => true

-- CONCRETE FIXTURES USED BY WITNESSES AND COUNTEREXAMPLES
-- ===============================================================================================

/-- Options for a logger whose messages category is explicitly set to false
and that has a console sink. -/
def falseMessagesOptions : Options :=
  { name := "x", log := some { messages := some (.bool false) }, console := some (.flag true) }

/-- A logger with threshold info, a console sink and a telemetry sink. -/
def stC1w : LoggerState :=
  { name := "w", messages := .num 2, errors := .bool true, events := .bool true
    metrics := .bool true, services := .bool true, requests := .bool true
    console := some (ConsoleLogger.new "w" (.flag true)), telemetry := true, whitelist := none }

/-- A logger named dev-logger whose console sink enables the timestamp, name
and level (stream) prefix segments. -/
def stC7 : LoggerState :=
  { name := "dev-logger", messages := .num 1, errors := .bool true, events := .bool true
    metrics := .bool true, services := .bool true, requests := .bool true
    console := some (ConsoleLogger.new "dev-logger"
      (.opts { prefixOpt := some (.opts { time := some true, name := some true, stream := some true }) }))
    telemetry := false, whitelist := none }

/-- A console sink with the prefix disabled and no color, exposing the raw
message bodies. -/
def bareConsole : ConsoleConfig :=
  ConsoleLogger.new "x" (.opts { prefixOpt := some (.flag false) })

/-- Prefix options enabling the timestamp, name and level (stream)
segments. -/
def c7opts : PrefixOptionsInput := { time := some true, name := some true, stream := some true }

/-- The resolved prefix flags for c7opts. -/
def c7flags : PrefixFlags := { time := true, name := true, stream := true }

/-- Options with every field defaulted. -/
def w4opts : Options := { name := "w4" }

/-- The state the constructor produces for w4opts. -/
def w4state : LoggerState :=
  { name := "w4", messages := .num 1, errors := .bool true, events := .bool true
    metrics := .bool true, services := .bool true, requests := .bool true
    console := none, telemetry := false, whitelist := none }

-- SUPPORT LEMMAS
-- ===============================================================================================

/-- A truthy message on a stream that the switch maps to a console method is
printed as exactly one console line. -/
lemma logToConsole_single (cfg : ConsoleConfig) (now : String) (msg : JSValue) (s : Nat)
    (svc : Option String) (mth : ConsoleMethod) (hm : truthy msg = true)
    (hs : streamMethod s = some mth) :
    ∃ t, logToConsole cfg now msg s svc = [.console mth t] := by
  have hs0 : (s == 0) = false := by
    cases s with
    | zero => simp [streamMethod] at hs
    | succ n => rfl
  simp only [logToConsole, hm, hs0, Bool.not_true, Bool.or_false, if_false, hs]
  exact ⟨_, rfl⟩

/-- Every console line printed by logToConsole uses the console method the
stream switch selects. -/
lemma logToConsole_onlyVia (cfg : ConsoleConfig) (now : String) (msg : JSValue) (s : Nat)
    (svc : Option String) (mth : ConsoleMethod) (hs : streamMethod s = some mth) :
    (logToConsole cfg now msg s svc).all (onlyVia mth) = true := by
  unfold logToConsole
  split
  · rfl
  · simp [hs, onlyVia]

/-- When the debug gate and the argument guards pass, Logger.debug produces
a console line exactly when the console sink exists and a telemetry trace
exactly when the telemetry client exists. -/
lemma debug_ok (st : LoggerState) (now : String) (m : String) (source : JSValue)
    (hmsg : m ≠ "") (hgate : jsGT st.messages MessageLevel.debug = false)
    (hsrc : sourceBlocked st.whitelist source = false) :
    ∃ effs, Logger.debug st (.str m) source now = .ok effs ∧
      hasConsoleEffect effs = st.console.isSome ∧ hasTelemetryEffect effs = st.telemetry := by
  have htm : truthy (.str m) = true := by simp [truthy, hmsg]
  refine ⟨_, by simp only [Logger.debug, hgate, hsrc, htm, isString, Bool.not_true,
    Bool.or_false, Bool.false_or, Bool.not_false, if_false, if_true]; rfl, ?_, ?_⟩ <;>
  · cases hc : st.console with
    | none => cases ht : st.telemetry <;>
        simp [hc, ht, hasConsoleEffect, hasTelemetryEffect, Effect.isConsole, Effect.isTelemetry]
    | some cfg =>
        obtain ⟨t, hT⟩ := logToConsole_single cfg now (.str m) 1 none .log htm rfl
        cases ht : st.telemetry <;>
          simp [hc, ht, hasConsoleEffect, hasTelemetryEffect, ConsoleLogger.debug,
            jsToString, hT, Effect.isConsole, Effect.isTelemetry]

/-- The debug gate: a threshold strictly above debug suppresses the call. -/
lemma debug_gated (st : LoggerState) (now : String) (m source : JSValue)
    (hgate : jsGT st.messages MessageLevel.debug = true) :
    Logger.debug st m source now = .ok [] := by
  simp [Logger.debug, hgate]

/-- When the info gate and the argument guards pass, Logger.info produces a
console line exactly when the console sink exists and a telemetry trace
exactly when the telemetry client exists. -/
lemma info_ok (st : LoggerState) (now : String) (m : String) (source : JSValue)
    (hmsg : m ≠ "") (hgate : (!truthy st.messages || jsGT st.messages MessageLevel.info) = false)
    (hsrc : sourceBlocked st.whitelist source = false) :
    ∃ effs, Logger.info st (.str m) source now = .ok effs ∧
      hasConsoleEffect effs = st.console.isSome ∧ hasTelemetryEffect effs = st.telemetry := by
  have htm : truthy (.str m) = true := by simp [truthy, hmsg]
  refine ⟨_, by simp only [Logger.info, hgate, hsrc, htm, isString, Bool.not_true,
    Bool.or_false, Bool.false_or, Bool.not_false, if_false, if_true]; rfl, ?_, ?_⟩ <;>
  · cases hc : st.console with
    | none => cases ht : st.telemetry <;>
        simp [hc, ht, hasConsoleEffect, hasTelemetryEffect, Effect.isConsole, Effect.isTelemetry]
    | some cfg =>
        obtain ⟨t, hT⟩ := logToConsole_single cfg now (.str m) 2 none .info htm rfl
        cases ht : st.telemetry <;>
          simp [hc, ht, hasConsoleEffect, hasTelemetryEffect, ConsoleLogger.info,
            jsToString, hT, Effect.isConsole, Effect.isTelemetry]

/-- The info gate: a falsy or too-high threshold suppresses the call. -/
lemma info_gated (st : LoggerState) (now : String) (m source : JSValue)
    (hgate : (!truthy st.messages || jsGT st.messages MessageLevel.info) = true) :
    Logger.info st m source now = .ok [] := by
  simp only [Logger.info, hgate, if_true]

/-- When the warn gate and the argument guards pass, Logger.warn produces a
console line exactly when the console sink exists and a telemetry trace
exactly when the telemetry client exists. -/
lemma warn_ok (st : LoggerState) (now : String) (m : String) (source : JSValue)
    (hmsg : m ≠ "") (hgate : (!truthy st.messages || jsGT st.messages MessageLevel.warning) = false)
    (hsrc : sourceBlocked st.whitelist source = false) :
    ∃ effs, Logger.warn st (.str m) source now = .ok effs ∧
      hasConsoleEffect effs = st.console.isSome ∧ hasTelemetryEffect effs = st.telemetry := by
  have htm : truthy (.str m) = true := by simp [truthy, hmsg]
  refine ⟨_, by simp only [Logger.warn, hgate, hsrc, htm, isString, Bool.not_true,
    Bool.or_false, Bool.false_or, Bool.not_false, if_false, if_true]; rfl, ?_, ?_⟩ <;>
  · cases hc : st.console with
    | none => cases ht : st.telemetry <;>
        simp [hc, ht, hasConsoleEffect, hasTelemetryEffect, Effect.isConsole, Effect.isTelemetry]
    | some cfg =>
        obtain ⟨t, hT⟩ := logToConsole_single cfg now (.str m) 3 none .warn htm rfl
        cases ht : st.telemetry <;>
          simp [hc, ht, hasConsoleEffect, hasTelemetryEffect, ConsoleLogger.warn,
            jsToString, hT, Effect.isConsole, Effect.isTelemetry]

/-- The warn gate: a falsy or too-high threshold suppresses the call. -/
lemma warn_gated (st : LoggerState) (now : String) (m source : JSValue)
    (hgate : (!truthy st.messages || jsGT st.messages MessageLevel.warning) = true) :
    Logger.warn st m source now = .ok [] := by
  simp only [Logger.warn, hgate, if_true]

-- THEOREMS
-- ===============================================================================================

/-- A string with a non-empty left part is non-empty. -/
lemma append_ne_empty_left (a b : String) (ha : a ≠ "") : a ++ b ≠ "" := by
  intro h
  have hl := congrArg String.length h
  simp [String.length_append] at hl
  exact ha (String.ext (List.length_eq_zero.mp hl.1))

lemma hasConsoleEffect_append (a b : List Effect) :
    hasConsoleEffect (a ++ b) = (hasConsoleEffect a || hasConsoleEffect b) := by
  simp [hasConsoleEffect]

lemma hasTelemetryEffect_append (a b : List Effect) :
    hasTelemetryEffect (a ++ b) = (hasTelemetryEffect a || hasTelemetryEffect b) := by
  simp [hasTelemetryEffect]

/-- C1: for a logger whose configuration parsed to a numeric message
threshold T among the three ranks, a debug/info/warn call with a non-empty
string message whose source is not filtered by the allow-list produces a
console line exactly when the console sink exists and the call rank is at
least T, and a telemetry trace exactly when the telemetry client exists and
the call rank is at least T (ranks: debug 1, info 2, warning 3); the error
path never reads the threshold and is gated by the errors category flag. -/
theorem severity_gate_C1 (st : LoggerState) (T : Int) (hT : T = 1 ∨ T = 2 ∨ T = 3)
    (hm : st.messages = .num T) (m : String) (hmsg : m ≠ "") (source : JSValue)
    (hsrc : sourceBlocked st.whitelist source = false) (now : String) :
    (∃ effs, Logger.debug st (.str m) source now = .ok effs ∧
       hasConsoleEffect effs = (st.console.isSome && decide (T ≤ 1)) ∧
       hasTelemetryEffect effs = (st.telemetry && decide (T ≤ 1))) ∧
    (∃ effs, Logger.info st (.str m) source now = .ok effs ∧
       hasConsoleEffect effs = (st.console.isSome && decide (T ≤ 2)) ∧
       hasTelemetryEffect effs = (st.telemetry && decide (T ≤ 2))) ∧
    (∃ effs, Logger.warn st (.str m) source now = .ok effs ∧
       hasConsoleEffect effs = (st.console.isSome && decide (T ≤ 3)) ∧
       hasTelemetryEffect effs = (st.telemetry && decide (T ≤ 3))) ∧
    (∀ m₁ m₂ e now₁, Logger.error { st with messages := m₁ } e now₁ =
        Logger.error { st with messages := m₂ } e now₁) ∧
    (∀ e now₁, truthy st.errors = false → Logger.error st e now₁ = .ok []) := by
  have herr : ∀ e now₁, truthy st.errors = false → Logger.error st e now₁ = .ok [] := by
    intro e now₁ h
    simp [Logger.error, h]
  rcases hT with h | h | h <;> subst h
  · refine ⟨?_, ?_, ?_, fun m₁ m₂ e now₁ => rfl, herr⟩
    · obtain ⟨effs, he, hc, ht⟩ := debug_ok st now m source hmsg (by rw [hm]; decide) hsrc
      exact ⟨effs, he, by simp [hc], by simp [ht]⟩
    · obtain ⟨effs, he, hc, ht⟩ := info_ok st now m source hmsg (by rw [hm]; decide) hsrc
      exact ⟨effs, he, by simp [hc], by simp [ht]⟩
    · obtain ⟨effs, he, hc, ht⟩ := warn_ok st now m source hmsg (by rw [hm]; decide) hsrc
      exact ⟨effs, he, by simp [hc], by simp [ht]⟩
  · refine ⟨?_, ?_, ?_, fun m₁ m₂ e now₁ => rfl, herr⟩
    · refine ⟨[], debug_gated st now (.str m) source (by rw [hm]; decide), by simp [hasConsoleEffect], by simp [hasTelemetryEffect]⟩
    · obtain ⟨effs, he, hc, ht⟩ := info_ok st now m source hmsg (by rw [hm]; decide) hsrc
      exact ⟨effs, he, by simp [hc], by simp [ht]⟩
    · obtain ⟨effs, he, hc, ht⟩ := warn_ok st now m source hmsg (by rw [hm]; decide) hsrc
      exact ⟨effs, he, by simp [hc], by simp [ht]⟩
  · refine ⟨?_, ?_, ?_, fun m₁ m₂ e now₁ => rfl, herr⟩
    · refine ⟨[], debug_gated st now (.str m) source (by rw [hm]; decide), by simp [hasConsoleEffect], by simp [hasTelemetryEffect]⟩
    · refine ⟨[], info_gated st now (.str m) source (by rw [hm]; decide), by simp [hasConsoleEffect], by simp [hasTelemetryEffect]⟩
    · obtain ⟨effs, he, hc, ht⟩ := warn_ok st now m source hmsg (by rw [hm]; decide) hsrc
      exact ⟨effs, he, by simp [hc], by simp [ht]⟩

/-- C1 witness: the theorem applied to a logger with threshold info, a
console sink and a telemetry sink, message "hello" and no source. -/
theorem severity_gate_C1_witness :
    (∃ effs, Logger.debug stC1w (.str "hello") JSValue.undef "ts" = .ok effs ∧
       hasConsoleEffect effs = (stC1w.console.isSome && decide ((2:Int) ≤ 1)) ∧
       hasTelemetryEffect effs = (stC1w.telemetry && decide ((2:Int) ≤ 1))) ∧
    (∃ effs, Logger.info stC1w (.str "hello") JSValue.undef "ts" = .ok effs ∧
       hasConsoleEffect effs = (stC1w.console.isSome && decide ((2:Int) ≤ 2)) ∧
       hasTelemetryEffect effs = (stC1w.telemetry && decide ((2:Int) ≤ 2))) ∧
    (∃ effs, Logger.warn stC1w (.str "hello") JSValue.undef "ts" = .ok effs ∧
       hasConsoleEffect effs = (stC1w.console.isSome && decide ((2:Int) ≤ 3)) ∧
       hasTelemetryEffect effs = (stC1w.telemetry && decide ((2:Int) ≤ 3))) ∧
    (∀ m₁ m₂ e now₁, Logger.error { stC1w with messages := m₁ } e now₁ =
        Logger.error { stC1w with messages := m₂ } e now₁) ∧
    (∀ e now₁, truthy stC1w.errors = false → Logger.error stC1w e now₁ = .ok []) :=
  severity_gate_C1 stC1w 2 (Or.inr (Or.inl rfl)) rfl "hello" (by decide) .undef (by decide) "ts"

/-- C2: the claim states that an explicit messages=false disables every
message level; the code disables info and warn (their gates test the falsy
threshold) but the debug gate only performs the numeric comparison, which is
false for the undefined threshold, so debug still logs.  The spec's stated
invariant (explicit false disables the category entirely) is taken as the
intent; this theorem evaluates the code at the failing input: with
messages=false and a console sink, debug("hello") prints a console line
while info("hello") and warn("hello") print nothing. -/
theorem false_messages_C2_bug :
    (Logger.new falseMessagesOptions).bind
        (fun st => Logger.debug st (.str "hello") JSValue.undef "ts") =
      .ok [.console .log "[x]: hello"] ∧
    (Logger.new falseMessagesOptions).bind
        (fun st => Logger.info st (.str "hello") JSValue.undef "ts") = .ok [] ∧
    (Logger.new falseMessagesOptions).bind
        (fun st => Logger.warn st (.str "hello") JSValue.undef "ts") = .ok [] := by
  exact ⟨rfl, rfl, rfl⟩

/-- C4: singleton discipline: a successful construction on the empty global
state stores and returns the instance; configure on a populated state throws
the already-configured error and leaves the stored instance unchanged (and
getInstance still returns it); getInstance and each of the eight
pass-through functions throw the not-yet-configured error on the empty
state. -/
theorem singleton_C4 :
    (∀ o l, Logger.new o = .ok l → configure none o = (.ok l, some l)) ∧
    (∀ inst o, configure (some inst) o =
        (.error "Global logger has already been configured", some inst) ∧
      getInstance (some inst) = .ok inst) ∧
    (getInstance none = .error "Global logger has not yet been configured") ∧
    (∀ a b c d now p,
      passthroughDebug none a b now = .error "Global logger has not yet been configured" ∧
      passthroughInfo none a b now = .error "Global logger has not yet been configured" ∧
      passthroughWarn none a b now = .error "Global logger has not yet been configured" ∧
      passthroughError none a now = .error "Global logger has not yet been configured" ∧
      passthroughLog none a p now = .error "Global logger has not yet been configured" ∧
      passthroughTrack none a b now = .error "Global logger has not yet been configured" ∧
      passthroughTrace none a b c d now = .error "Global logger has not yet been configured" ∧
      passthroughRequest none a b = .error "Global logger has not yet been configured") := by
  refine ⟨?_, fun inst o => ⟨rfl, rfl⟩, rfl, fun a b c d now p => ?_⟩
  · intro o l h
    simp [configure, h]
  · exact ⟨rfl, rfl, rfl, rfl, rfl, rfl, rfl, rfl⟩

/-- C4 witness: configuring the empty global state with all-default options
stores and returns the constructed instance. -/
theorem singleton_C4_witness :
    configure none w4opts = (.ok w4state, some w4state) :=
  singleton_C4.1 w4opts w4state rfl

/-- C7: the console prefix is composed in the fixed segment order
timestamp, name, level (stream), source, each bracketed segment present only
if enabled: for every prefix-options record the builder resolves the flags
over the defaults (name on, timestamp and level off) and the produced prefix
equals the join of exactly the enabled segments in that order (a disabled
segment is absent from the list, and the source segment is present only for
a truthy source); when every flag is off no prefixer is built; the boolean
shorthand selects the defaults (true) or no prefixer (false); a sink holding
a prefixer renders every line as the prefix, a colon and the body; in
particular on the dev-logger state with timestamp, name and level enabled,
warn("x") renders "[<timestamp>][dev-logger][warning]: x" via the warn
method. -/
theorem prefix_order_C7 :
    (∀ (o : PrefixOptionsInput) (name now : String) (stream : Nat) (service : Option String)
       (r : PrefixFlags), buildPrefixer (.opts o) = some r →
        r.time = o.time.getD false ∧ r.name = o.name.getD true ∧
        r.stream = o.stream.getD false ∧
        prefixString r name now stream service =
          String.join ((if r.time then ["[" ++ now ++ "]"] else []) ++
            ((if r.name then ["[" ++ name ++ "]"] else []) ++
             ((if r.stream then ["[" ++ streamName stream ++ "]"] else []) ++
              (match service with
               | some s => if s = "" then [] else ["[" ++ s ++ "]"]
               | none => []))))) ∧
    (∀ o : PrefixOptionsInput, o.time.getD false = false → o.name.getD true = false →
        o.stream.getD false = false → buildPrefixer (.opts o) = none) ∧
    (buildPrefixer (.flag true) = buildPrefixer (.opts {}) ∧ buildPrefixer (.flag false) = none) ∧
    (∀ (cfg : ConsoleConfig) (r : PrefixFlags) (now m : String) (stream : Nat)
       (mth : ConsoleMethod) (svc : Option String),
        cfg.prefixCfg = some r → cfg.colorCfg = none → m ≠ "" →
        streamMethod stream = some mth →
        logToConsole cfg now (.str m) stream svc =
          [.console mth (prefixString r cfg.name now stream svc ++ (": " ++ m))]) ∧
    (∀ now : String, ∃ t, Logger.warn stC7 (.str "x") .undef now = .ok [.console .warn t] ∧
        t = "[" ++ now ++ "][dev-logger][warning]: x") := by
  refine ⟨?_, ?_, ⟨rfl, rfl⟩, ?_, ?_⟩
  · intro o name now stream service r h
    simp only [buildPrefixer] at h
    split at h
    · exact absurd h (by simp)
    · injection h with h2
      subst h2
      refine ⟨rfl, rfl, rfl, ?_⟩
      rcases service with _ | s
      · cases htt : o.time.getD false <;> cases hnn : o.name.getD true <;>
          cases hss : o.stream.getD false <;>
          simp [prefixString, String.join, htt, hnn, hss, String.append_assoc]
      · by_cases hs : s = "" <;>
          cases htt : o.time.getD false <;> cases hnn : o.name.getD true <;>
            cases hss : o.stream.getD false <;>
            simp [prefixString, String.join, htt, hnn, hss, hs, String.append_assoc]
  · intro o h1 h2 h3
    unfold buildPrefixer
    simp [h1, h2, h3]
  · intro cfg r now m stream mth svc hp hcol hm hsm
    have hs0 : (stream == 0) = false := by
      cases stream with
      | zero => simp [streamMethod] at hsm
      | succ n => rfl
    have htm : truthy (.str m) = true := by simp [truthy, hm]
    simp only [logToConsole, htm, hs0, Bool.not_true, Bool.or_false, if_false, hp, hcol, hsm,
      jsToString]
    rfl
  · intro now
    refine ⟨_, rfl, ?_⟩
    simp [ConsoleLogger.new, buildPrefixer, buildColorizer, prefixString, streamName,
      jsToString, String.append_assoc]

/-- C7 witness: the general clause applied to the concrete prefix options
enabling all three flags, with name dev-logger, a fixed timestamp, the
warning stream and no source. -/
theorem prefix_order_C7_witness :
    c7flags.time = c7opts.time.getD false ∧ c7flags.name = c7opts.name.getD true ∧
    c7flags.stream = c7opts.stream.getD false ∧
    prefixString c7flags "dev-logger" "ts" 3 none =
      String.join ((if c7flags.time then ["[" ++ "ts" ++ "]"] else []) ++
        ((if c7flags.name then ["[" ++ "dev-logger" ++ "]"] else []) ++
         ((if c7flags.stream then ["[" ++ streamName 3 ++ "]"] else []) ++ []))) :=
  prefix_order_C7.1 c7opts "dev-logger" "ts" 3 none c7flags rfl

/-- C8: the request-line builder on method GET, path /a, HTTP version 1.1,
status 200, content-length 42 and duration 15 ms renders the short format as
"(address) - GET /a HTTP/1.1 200 42 - 15 ms" and the dev format as
"GET /a 200 15 ms - 42"; the address is the request's ip field when that is
truthy, else the connection's remote address; an absent request yields no
line. -/
theorem request_line_C8 (ip ra : JSValue) (hip : truthy ip = true) (conn : Option Connection) :
    (buildRequestLine
        (some { ip := ip, connection := conn, method := .str "GET", path := .str "/a",
                url := .undef, httpVersion := .str "1.1" })
        { statusCode := .num 200, contentLength := .num 42 } 15 "short"
      = .str (jsToString ip ++ " - GET /a HTTP/1.1 200 42 - 15 ms")) ∧
    (buildRequestLine
        (some { ip := ip, connection := conn, method := .str "GET", path := .str "/a",
                url := .undef, httpVersion := .str "1.1" })
        { statusCode := .num 200, contentLength := .num 42 } 15 "dev"
      = .str "GET /a 200 15 ms - 42") ∧
    (buildRequestLine
        (some { ip := .undef, connection := some ⟨ra⟩, method := .str "GET", path := .str "/a",
                url := .undef, httpVersion := .str "1.1" })
        { statusCode := .num 200, contentLength := .num 42 } 15 "short"
      = .str (jsToString ra ++ " - GET /a HTTP/1.1 200 42 - 15 ms")) ∧
    (∀ (resp : ResponseInfo) (d : Int) (f : String), buildRequestLine none resp d f = .undef) := by
  refine ⟨?_, rfl, rfl, fun resp d f => rfl⟩
  simp only [buildRequestLine, hip]
  rfl

/-- C8 witness: the theorem applied at the concrete resolved address
9.9.9.9. -/
theorem request_line_C8_witness :
    buildRequestLine
        (some { ip := .str "9.9.9.9", connection := none, method := .str "GET",
                path := .str "/a", url := .undef, httpVersion := .str "1.1" })
        { statusCode := .num 200, contentLength := .num 42 } 15 "short"
      = .str (jsToString (.str "9.9.9.9") ++ " - GET /a HTTP/1.1 200 42 - 15 ms") :=
  (request_line_C8 (.str "9.9.9.9") .undef (by decide) none).1

/-- C9 counterexample: on a console sink with the prefix disabled and no
color, track("cpu", 42) renders the console body as the bracketed pair
rather than the claimed bare pair: the line is "[cpu=42]", which differs
from "cpu=42". -/
theorem track_C9_counterexample :
    ConsoleLogger.track bareConsole "ts" (.str "cpu") (.num 42) = [.console .info "[cpu=42]"] ∧
    "[cpu=42]" ≠ "cpu=42" :=
  ⟨rfl, by decide⟩

/-- C9 amended: for every metric name and integer value, the console metric
body (observed with no prefix and no color configured) is the bracketed
pair: an opening bracket, the metric name, the equals sign, the rendered
value and a closing bracket, written via the info method. -/
theorem track_C9_amended (name fe fr now m : String) (v : Int) :
    ConsoleLogger.track
        { name := name, prefixCfg := none, colorCfg := none, fmtError := fe, fmtRequest := fr }
        now (.str m) (.num v)
      = [.console .info ("[" ++ (m ++ ("=" ++ (toString v ++ "]"))))] := by
  have hne : ("[" ++ (m ++ ("=" ++ (toString v ++ "]")))) ≠ "" :=
    append_ne_empty_left _ _ (by decide)
  have ht : truthy (.str ("[" ++ (m ++ ("=" ++ (toString v ++ "]"))))) = true := by
    simp [truthy, hne]
  simp only [ConsoleLogger.track, jsToString, logToConsole, ht, Bool.not_true, Bool.or_false]
  rfl

/-- C10: for every console sink configuration and arguments, the console
lines of events (log), metrics (track), service traces (trace) and the
deferred request line are written via the info method, while the leveled
message methods and the error path select their method by severity: debug
via log, info via info, warn via warn, error via error. -/
theorem streams_C10 (cfg : ConsoleConfig) (now ev m svc cmd : String) (p : Option JSValue)
    (metric value err : JSValue) (d : Int) (su : Bool) (req : Option RequestInfo)
    (resp : ResponseInfo) :
    ((ConsoleLogger.log cfg now ev p).all (onlyVia .info) = true) ∧
    ((ConsoleLogger.track cfg now metric value).all (onlyVia .info) = true) ∧
    ((ConsoleLogger.trace cfg now svc cmd d su).all (onlyVia .info) = true) ∧
    ((ConsoleLogger.requestFinished cfg now req resp d).all (onlyVia .info) = true) ∧
    ((ConsoleLogger.debug cfg now m).all (onlyVia .log) = true) ∧
    ((ConsoleLogger.info cfg now m).all (onlyVia .info) = true) ∧
    ((ConsoleLogger.warn cfg now m).all (onlyVia .warn) = true) ∧
    ((ConsoleLogger.error cfg now err).all (onlyVia .error) = true) :=
  ⟨logToConsole_onlyVia cfg now _ 2 none .info rfl,
   logToConsole_onlyVia cfg now _ 2 none .info rfl,
   logToConsole_onlyVia cfg now _ 2 (some svc) .info rfl,
   logToConsole_onlyVia cfg now _ 2 none .info rfl,
   logToConsole_onlyVia cfg now _ 1 none .log rfl,
   logToConsole_onlyVia cfg now _ 2 none .info rfl,
   logToConsole_onlyVia cfg now _ 3 none .warn rfl,
   logToConsole_onlyVia cfg now _ 4 none .error rfl⟩

end Credo
